import Mathlib

/-!
Verification of the signal-control simulation engine of
`traffic_lights_optimization`.

The Python sources are shallowly embedded:
* Python `int` becomes `Int`;
* Python `dict` becomes an association list `List (String × _)` with
  first-match lookup (Python dict keys are unique, so first match is the
  binding);
* fallible Python code (dict `KeyError`, list index errors) becomes
  `Option` / `Except`;
* in-place mutation becomes an explicit state-passing return value.
-/

namespace Traffic

/-! ### Lane state — `src/simulation/entities.py`, class `LaneState` -/

structure LaneState where
  id : String
  queue : Int
  pedestrians : Int
deriving DecidableEq, Repr

/-- `LaneState.add_vehicle`: `self.queue = max(0, self.queue + count)`. -/
def LaneState.add_vehicle (lane : LaneState) (count : Int) : LaneState :=
  { lane with queue := max 0 (lane.queue + count) }

/-- `LaneState.clear_with_capacity`:
`cleared = min(self.queue, capacity); self.queue -= cleared; return cleared`.
Returns the cleared count together with the mutated lane. -/
def LaneState.clear_with_capacity (lane : LaneState) (capacity : Int) :
    Int × LaneState :=
  let cleared := min lane.queue capacity
  (cleared, { lane with queue := lane.queue - cleared })

/-! ### Phase state — `src/simulation/entities.py`, class `PhaseState` -/

structure PhaseState where
  name : String
  lanes : List String
  min_green : Int
  max_green : Int
  elapsed : Int
deriving DecidableEq, Repr

/-- `PhaseState.reset`: `self.elapsed = 0`. -/
def PhaseState.reset (p : PhaseState) : PhaseState :=
  { p with elapsed := 0 }

/-- `PhaseState.tick`: `self.elapsed += 1`. -/
def PhaseState.tick (p : PhaseState) : PhaseState :=
  { p with elapsed := p.elapsed + 1 }

/-- `PhaseState.can_extend`: `self.elapsed < self.max_green`. -/
def PhaseState.can_extend (p : PhaseState) : Bool :=
  p.elapsed < p.max_green

/-- `PhaseState.must_extend`: `self.elapsed < self.min_green`. -/
def PhaseState.must_extend (p : PhaseState) : Bool :=
  p.elapsed < p.min_green

/-! ### Intersection state — `src/simulation/entities.py`, class
`IntersectionState` (the `history` field is omitted: no claim reads it). -/

structure IntersectionState where
  layout_id : String
  phases : List PhaseState
  lanes : List (String × LaneState)
  current_phase_index : Nat
  time : Int
deriving DecidableEq, Repr

/-- `IntersectionState.current_phase`: `self.phases[self.current_phase_index]`;
`none` models the Python `IndexError` on an out-of-range index. -/
def IntersectionState.current_phase (i : IntersectionState) :
    Option PhaseState :=
  i.phases.get? i.current_phase_index

/-- Replace the element at index `n` by `f` of it (no-op out of range), used to
embed Python's in-place mutation of one list element. -/
def modifyAt {α : Type} : List α → Nat → (α → α) → List α
  | [], _, _ => []
  | a :: l, 0, f => f a :: l
  | a :: l, n + 1, f => a :: modifyAt l n f

/-- `IntersectionState.switch_phase`:
`self.current_phase_index = (self.current_phase_index + 1) % len(self.phases);
self.current_phase.reset()`. -/
def IntersectionState.switch_phase (i : IntersectionState) :
    IntersectionState :=
  let idx := (i.current_phase_index + 1) % i.phases.length
  { i with
    current_phase_index := idx
    phases := modifyAt i.phases idx PhaseState.reset }

inductive SimError where
  | NotFound
deriving DecidableEq, Repr

/-- Index of the first phase whose name is `name`, if any. -/
def findPhaseIdx (name : String) : List PhaseState → Option Nat
  | [] => none
  | p :: ps =>
      if p.name = name then some 0 else (findPhaseIdx name ps).map Nat.succ

/-- Modelled from the spec: `IntersectionState.set_phase` is called by
`CoordinatedSignalManager.sync_and_decide` (`src/simulation/network.py:99`) and
by `tests/test_network.py:29`, but its definition is missing from
`src/simulation/entities.py`. The spec says: `setPhase(byName)` jumps directly
to a named phase, resets its elapsed counter, and fails with NotFound if the
name does not match any phase. -/
def IntersectionState.set_phase (i : IntersectionState) (name : String) :
    Except SimError IntersectionState :=
  match findPhaseIdx name i.phases with
  | some idx =>
      Except.ok
        { i with
          current_phase_index := idx
          phases := modifyAt i.phases idx PhaseState.reset }
  | none => Except.error SimError.NotFound

/-! ### Lane operation sequences (for the queue non-negativity invariant) -/

/-- One lane-mutating operation of the public contract. -/
inductive LaneOp where
  | add (count : Int)
  | discharge (capacity : Int)
deriving DecidableEq, Repr

/-- Apply one operation to a lane (the discharged count is dropped). -/
def applyOp (lane : LaneState) : LaneOp → LaneState
  | LaneOp.add count => lane.add_vehicle count
  | LaneOp.discharge capacity => (lane.clear_with_capacity capacity).2

/-- Apply a sequence of operations left to right. -/
def applyOps (lane : LaneState) (ops : List LaneOp) : LaneState :=
  ops.foldl applyOp lane

/-- A discharge operation with non-negative capacity; additions may have any
sign. -/
def validOp : LaneOp → Bool
  | LaneOp.add _ => true
  | LaneOp.discharge capacity => 0 ≤ capacity

/-! ### Observations — `src/simulation/observation.py` -/

structure DetectorObservation where
  vehicles : List (String × Int)
  pedestrians : List (String × Int)
deriving DecidableEq, Repr

/-- Python `d[k]` on a dict: first binding for `k`, `none` on `KeyError`. -/
def lookup (m : List (String × Int)) (k : String) : Option Int :=
  (m.find? (fun p => p.1 == k)).map Prod.snd

/-- Python `d.get(k, 0)`. -/
def lookupD (m : List (String × Int)) (k : String) : Int :=
  (lookup m k).getD 0

/-- Look every key up in `m`, failing if any is missing — the values the
Python generator `(m[lane] for lane in keys)` would yield, `none` modelling
the `KeyError`. -/
def lookupAll (m : List (String × Int)) : List String → Option (List Int)
  | [] => some []
  | k :: ks => do
    let v ← lookup m k
    let vs ← lookupAll m ks
    pure (v :: vs)

/-- Python `sum(m[lane] for lane in keys)`. -/
def sumLookups (m : List (String × Int)) (keys : List String) : Option Int :=
  (lookupAll m keys).map List.sum

/-! ### Decision policy — `src/control/policy.py` -/

structure ActuationDecision where
  switch_phase : Bool
deriving DecidableEq, Repr

structure DemandResponsiveController where
  vehicle_threshold : Int := 12
  pedestrian_priority : Bool := true
deriving DecidableEq, Repr

/-- `DemandResponsiveController.decide`: hold while `must_extend`; hold on
pedestrian pressure when prioritized; hold while the queue is below the
threshold and the phase `can_extend`; otherwise switch. `none` models the
Python exceptions (bad phase index, missing observation key). -/
def DemandResponsiveController.decide (c : DemandResponsiveController)
    (intersection : IntersectionState) (observation : DetectorObservation) :
    Option ActuationDecision := do
  let phase ← intersection.current_phase
  let total_queue ← sumLookups observation.vehicles phase.lanes
  let pedestrian_pressure ← sumLookups observation.pedestrians phase.lanes
  if phase.must_extend then
    pure (ActuationDecision.mk false)
  else if c.pedestrian_priority && Decidable.decide (pedestrian_pressure > 0) then
    pure (ActuationDecision.mk false)
  else if Decidable.decide (total_queue < c.vehicle_threshold) && phase.can_extend then
    pure (ActuationDecision.mk false)
  else
    pure (ActuationDecision.mk true)

/-! ### Network and coordinator — `src/simulation/network.py`
(`TrafficNetwork.history` is omitted: no claim reads it). -/

structure TrafficNetwork where
  intersections : List (String × IntersectionState)
  offsets : List (String × Int)
  time : Int
deriving DecidableEq, Repr

structure CoordinatedSignalManager where
  corridor_lanes : List String
  cycle_length : Int := 90
  green_band : Int := 30
deriving DecidableEq, Repr

/-- `CoordinatedSignalManager._corridor_phase`: the first phase serving at
least one corridor lane, or `none`. -/
def CoordinatedSignalManager.corridor_phase (csm : CoordinatedSignalManager)
    (intersection : IntersectionState) : Option String :=
  (intersection.phases.find?
      (fun phase => phase.lanes.any (fun lane => csm.corridor_lanes.contains lane))).map
    PhaseState.name

/-- `CoordinatedSignalManager._within_green_band`:
`((network_time + offset) % self.cycle_length) < self.green_band`, with the
cycle length and band width as explicit arguments. -/
def within_green_band (network_time offset cycle_length green_band : Int) :
    Bool :=
  ((network_time + offset) % cycle_length) < green_band

/-- Corridor pressure: `sum(obs.vehicles.get(lane, 0) for obs in
observations.values() for lane in self.corridor_lanes)`. -/
def corridorPressure (csm : CoordinatedSignalManager)
    (observations : List (String × DetectorObservation)) : Int :=
  (observations.map
      (fun o => (csm.corridor_lanes.map (fun lane => lookupD o.2.vehicles lane)).sum)).sum

/-- Cross pressure: the sum of vehicle counts on non-corridor lanes across all
observations. -/
def crossPressure (csm : CoordinatedSignalManager)
    (observations : List (String × DetectorObservation)) : Int :=
  (observations.map
      (fun o =>
        ((o.2.vehicles.filter (fun p => !(csm.corridor_lanes.contains p.1))).map
            Prod.snd).sum)).sum

/-- Python truthiness of the `str | None` value `target_phase`: `None` and the
empty string are falsy. -/
def truthy : Option String → Bool
  | some s => s != ""
  | none => false

/-- One iteration of the `for inter_id, intersection in
network.intersections.items()` loop of `sync_and_decide`: produces the decision
for this intersection together with its (possibly force-switched) state.
`none` models the Python exceptions (`observations[inter_id]` `KeyError`,
policy failure). The lazily created controller
(`self.local_controllers.setdefault(inter_id, DemandResponsiveController())`)
is taken from `controllers`, defaulting to a fresh controller. -/
def syncStep (csm : CoordinatedSignalManager) (prioritize : Bool)
    (network_time : Int) (offsets : List (String × Int))
    (controllers : List (String × DemandResponsiveController))
    (observations : List (String × DetectorObservation))
    (inter_id : String) (intersection : IntersectionState) :
    Option (ActuationDecision × IntersectionState) := do
  let obs ← (observations.find? (fun p => p.1 == inter_id)).map Prod.snd
  let controller :=
    ((controllers.find? (fun p => p.1 == inter_id)).map Prod.snd).getD {}
  let target_phase := csm.corridor_phase intersection
  if prioritize && truthy target_phase then
    if within_green_band network_time (lookupD offsets inter_id)
        csm.cycle_length csm.green_band then
      let target ← target_phase
      let current ← intersection.current_phase
      if current.name != target then
        let forced ← (intersection.set_phase target).toOption
        pure (ActuationDecision.mk false, forced)
      else
        pure (ActuationDecision.mk false, intersection)
    else
      let d ← controller.decide intersection obs
      pure (d, intersection)
  else
    let d ← controller.decide intersection obs
    pure (d, intersection)

/-- The whole intersection loop of `sync_and_decide`, in dict insertion
order. -/
def syncLoop (csm : CoordinatedSignalManager) (prioritize : Bool)
    (network_time : Int) (offsets : List (String × Int))
    (controllers : List (String × DemandResponsiveController))
    (observations : List (String × DetectorObservation)) :
    List (String × IntersectionState) →
      Option (List (String × ActuationDecision) × List (String × IntersectionState))
  | [] => some ([], [])
  | (inter_id, intersection) :: rest => do
    let (d, intersection') ←
      syncStep csm prioritize network_time offsets controllers observations
        inter_id intersection
    let (ds, rest') ←
      syncLoop csm prioritize network_time offsets controllers observations rest
    pure ((inter_id, d) :: ds, (inter_id, intersection') :: rest')

/-- `CoordinatedSignalManager.sync_and_decide`: computes corridor and cross
pressure, sets the network-wide corridor-priority flag, then decides for every
intersection, force-aligning corridor phases inside the green band. Returns
the decisions and the network with its mutated intersections. -/
def sync_and_decide (csm : CoordinatedSignalManager)
    (controllers : List (String × DemandResponsiveController))
    (network : TrafficNetwork)
    (observations : List (String × DetectorObservation)) :
    Option (List (String × ActuationDecision) × TrafficNetwork) := do
  let prioritize : Bool :=
    corridorPressure csm observations ≥ crossPressure csm observations
  let (ds, inters) ←
    syncLoop csm prioritize network.time network.offsets controllers
      observations network.intersections
  pure (ds, { network with intersections := inters })

/-! ### Concrete layouts and observations used by the scenario theorems and
witnesses (mirroring `tests/test_network.py:build_layout` and the spec's
scenarios). -/

def phaseMain : PhaseState :=
  { name := "main_corridor", lanes := ["N_S"], min_green := 5, max_green := 10,
    elapsed := 0 }

def phaseSide : PhaseState :=
  { name := "side_street", lanes := ["E_W"], min_green := 5, max_green := 10,
    elapsed := 0 }

def laneNS : LaneState := { id := "N_S", queue := 0, pedestrians := 0 }

def laneEW : LaneState := { id := "E_W", queue := 0, pedestrians := 0 }

/-- Intersection `A`: on its corridor phase. -/
def interA : IntersectionState :=
  { layout_id := "A", phases := [phaseMain, phaseSide],
    lanes := [("N_S", laneNS), ("E_W", laneEW)], current_phase_index := 0,
    time := 0 }

/-- Intersection `B`: on its side-street (non-corridor) phase. -/
def interB : IntersectionState :=
  { layout_id := "B", phases := [phaseMain, phaseSide],
    lanes := [("N_S", laneNS), ("E_W", laneEW)], current_phase_index := 1,
    time := 0 }

/-- Intersection `B` after the coordinator forces its corridor phase. -/
def interBForced : IntersectionState :=
  { interB with current_phase_index := 0 }

/-- Scenario C network: offsets A ↦ 0, B ↦ 5, network time 3. -/
def netC : TrafficNetwork :=
  { intersections := [("A", interA), ("B", interB)],
    offsets := [("A", 0), ("B", 5)], time := 3 }

/-- Scenario C coordinator: corridor `["N_S"]`, cycle 60, band 15. -/
def csmC : CoordinatedSignalManager :=
  { corridor_lanes := ["N_S"], cycle_length := 60, green_band := 15 }

/-- Scenario C observations: corridor pressure 15, cross pressure 10. -/
def obsC : List (String × DetectorObservation) :=
  [("A",
    { vehicles := [("N_S", 15), ("E_W", 10)],
      pedestrians := [("N_S", 0), ("E_W", 0)] }),
   ("B",
    { vehicles := [("N_S", 0), ("E_W", 0)],
      pedestrians := [("N_S", 0), ("E_W", 0)] })]

/-- A small observation for the policy witnesses: one vehicle on the corridor
lane, nothing else. -/
def obsLow : DetectorObservation :=
  { vehicles := [("N_S", 1), ("E_W", 0)],
    pedestrians := [("N_S", 0), ("E_W", 0)] }

/-- Like `obsLow` but with large counts on the lane the current phase does not
serve. -/
def obsLowNoise : DetectorObservation :=
  { vehicles := [("N_S", 1), ("E_W", 99)],
    pedestrians := [("N_S", 0), ("E_W", 7)] }

/-! ## Theorems -/

/-- C3: for prior queue `q ≥ 0` and capacity `c ≥ 0`, `clear_with_capacity`
removes exactly `min q c` vehicles, returns that number, leaves the queue at
`q - min q c`, and never removes more than `c`. -/
theorem clear_with_capacity_conservation (lane : LaneState) (c : Int)
    (hq : 0 ≤ lane.queue) (hc : 0 ≤ c) :
    (lane.clear_with_capacity c).1 = min lane.queue c ∧
    (lane.clear_with_capacity c).2.queue = lane.queue - min lane.queue c ∧
    (lane.clear_with_capacity c).1 ≤ c :=
  ⟨rfl, rfl, min_le_right _ _⟩

/-- Witness for C3 at queue 7, capacity 5. -/
theorem clear_with_capacity_conservation_witness :
    ((LaneState.mk "A" 7 0).clear_with_capacity 5).1 = min 7 5 ∧
    ((LaneState.mk "A" 7 0).clear_with_capacity 5).2.queue = 7 - min 7 5 ∧
    ((LaneState.mk "A" 7 0).clear_with_capacity 5).1 ≤ 5 :=
  clear_with_capacity_conservation (LaneState.mk "A" 7 0) 5 (by decide)
    (by decide)

/-- C4 counterexample: at queue 0 and capacity −3, `clear_with_capacity` is
not rejected — it returns −3 and mutates the queue to 3, so the call neither
fails nor leaves the queue unchanged. -/
theorem clear_with_capacity_negative_counterexample :
    ((LaneState.mk "A" 0 0).clear_with_capacity (-3)).1 = -3 ∧
    ((LaneState.mk "A" 0 0).clear_with_capacity (-3)).2.queue = 3 := by
  decide

/-- C4 amended: `clear_with_capacity` performs no capacity validation; for a
lane with queue `q ≥ 0` and a capacity `c < 0` the call succeeds, returns `c`
itself, and sets the queue to `q - c` (an increase by `|c|`). -/
theorem clear_with_capacity_negative_amended (lane : LaneState) (c : Int)
    (hq : 0 ≤ lane.queue) (hc : c < 0) :
    (lane.clear_with_capacity c).1 = c ∧
    (lane.clear_with_capacity c).2.queue = lane.queue - c := by
  have hmin : min lane.queue c = c :=
    min_eq_right (le_of_lt (lt_of_lt_of_le hc hq))
  exact ⟨hmin, by show lane.queue - min lane.queue c = _; rw [hmin]⟩

/-- Witness for the amended C4 at queue 4, capacity −2. -/
theorem clear_with_capacity_negative_amended_witness :
    ((LaneState.mk "A" 4 0).clear_with_capacity (-2)).1 = -2 ∧
    ((LaneState.mk "A" 4 0).clear_with_capacity (-2)).2.queue = 4 - (-2) :=
  clear_with_capacity_negative_amended (LaneState.mk "A" 4 0) (-2) (by decide)
    (by decide)

/-- C10: `clear_with_capacity` is total for every integer capacity: it returns
`min queue c` and sets the queue to `queue - min queue c`; for `c < 0` (and a
non-negative queue) the returned value is `c` itself and the queue grows by
`|c|`. -/
theorem clear_with_capacity_total (lane : LaneState) (c : Int) :
    (lane.clear_with_capacity c).1 = min lane.queue c ∧
    (lane.clear_with_capacity c).2.queue = lane.queue - min lane.queue c ∧
    (c < 0 → 0 ≤ lane.queue →
      (lane.clear_with_capacity c).1 = c ∧
      (lane.clear_with_capacity c).2.queue = lane.queue + (-c)) := by
  refine ⟨rfl, rfl, fun hc hq => ?_⟩
  have hmin : min lane.queue c = c :=
    min_eq_right (le_of_lt (lt_of_lt_of_le hc hq))
  constructor
  · show min lane.queue c = c
    exact hmin
  · show lane.queue - min lane.queue c = lane.queue + (-c)
    rw [hmin]
    ring

/-- Witness for C10 at queue 5, capacity −2. -/
theorem clear_with_capacity_total_witness :
    ((LaneState.mk "L" 5 0).clear_with_capacity (-2)).1 = -2 ∧
    ((LaneState.mk "L" 5 0).clear_with_capacity (-2)).2.queue = 5 + 2 := by
  have h :=
    (clear_with_capacity_total (LaneState.mk "L" 5 0) (-2)).2.2 (by decide)
      (by decide)
  refine ⟨h.1, ?_⟩
  rw [h.2]
  norm_num

/-- One step of the queue non-negativity invariant: any `add_vehicle` and any
`clear_with_capacity` preserve a non-negative queue. -/
theorem applyOp_queue_nonneg (lane : LaneState) (op : LaneOp)
    (hq : 0 ≤ lane.queue) : 0 ≤ (applyOp lane op).queue := by
  cases op with
  | add count =>
      exact le_max_left 0 _
  | discharge capacity =>
      show 0 ≤ lane.queue - min lane.queue capacity
      have := min_le_left lane.queue capacity
      omega

/-- C5: starting from a non-negative queue, after any sequence of
`add_vehicle` (any sign) and `clear_with_capacity` (capacity ≥ 0) operations
the queue is still non-negative — and since the sequence is arbitrary, the
queue is non-negative after every intermediate operation as well. -/
theorem queue_nonneg_invariant (lane : LaneState) (ops : List LaneOp)
    (hq : 0 ≤ lane.queue) (hv : ∀ op ∈ ops, validOp op = true) :
    0 ≤ (applyOps lane ops).queue := by
  induction ops generalizing lane with
  | nil => exact hq
  | cons op rest ih =>
      have hstep := applyOp_queue_nonneg lane op hq
      exact ih (applyOp lane op) hstep (fun o ho => hv o (List.mem_cons_of_mem _ ho))

/-- Witness for C5: a mixed operation sequence starting from queue 1. -/
theorem queue_nonneg_invariant_witness :
    0 ≤ (applyOps (LaneState.mk "A" 1 0)
      [LaneOp.add 3, LaneOp.discharge 2, LaneOp.add (-10),
       LaneOp.discharge 0]).queue :=
  queue_nonneg_invariant (LaneState.mk "A" 1 0)
    [LaneOp.add 3, LaneOp.discharge 2, LaneOp.add (-10), LaneOp.discharge 0]
    (by decide) (by decide)

/-- C8: on an intersection with exactly one phase, `switch_phase` wraps the
current-phase index back to 0 and resets that single phase's elapsed counter
to zero. -/
theorem switch_phase_single_phase (i : IntersectionState) (p : PhaseState)
    (h : i.phases = [p]) :
    i.switch_phase.current_phase_index = 0 ∧
    i.switch_phase.current_phase = some p.reset := by
  constructor
  · show (i.current_phase_index + 1) % i.phases.length = 0
    rw [h]
    simp [Nat.mod_one]
  · show (modifyAt i.phases ((i.current_phase_index + 1) % i.phases.length)
        PhaseState.reset).get? ((i.current_phase_index + 1) % i.phases.length)
      = some p.reset
    rw [h]
    simp [Nat.mod_one, modifyAt]

/-- Witness for C8: a one-phase intersection. -/
theorem switch_phase_single_phase_witness :
    (IntersectionState.mk "solo" [phaseMain] [("N_S", laneNS)] 0
        0).switch_phase.current_phase_index = 0 ∧
    (IntersectionState.mk "solo" [phaseMain] [("N_S", laneNS)] 0
        0).switch_phase.current_phase = some phaseMain.reset :=
  switch_phase_single_phase
    (IntersectionState.mk "solo" [phaseMain] [("N_S", laneNS)] 0 0) phaseMain
    (by decide)

/-- `findPhaseIdx` returns `none` exactly when no phase carries the name. -/
theorem findPhaseIdx_eq_none_iff (name : String) (l : List PhaseState) :
    findPhaseIdx name l = none ↔ ∀ p ∈ l, p.name ≠ name := by
  induction l with
  | nil => simp [findPhaseIdx]
  | cons q qs ih =>
      by_cases hq : q.name = name
      · simp [findPhaseIdx, hq]
      · simp [findPhaseIdx, hq, ih]

/-- A successful `findPhaseIdx` returns an in-range index of a phase with the
requested name. -/
theorem findPhaseIdx_some (name : String) (l : List PhaseState) (idx : Nat)
    (h : findPhaseIdx name l = some idx) :
    ∃ hlt : idx < l.length, (l.get ⟨idx, hlt⟩).name = name := by
  induction l generalizing idx with
  | nil => simp [findPhaseIdx] at h
  | cons q qs ih =>
      by_cases hq : q.name = name
      · simp [findPhaseIdx, hq] at h
        subst h
        exact ⟨Nat.succ_pos _, hq⟩
      · simp [findPhaseIdx, hq] at h
        obtain ⟨m, hm, rfl⟩ := h
        obtain ⟨hlt, hname⟩ := ih m hm
        exact ⟨Nat.succ_lt_succ hlt, hname⟩

/-- `modifyAt` looked up at the modified index applies the function there. -/
theorem modifyAt_get? {α : Type} (l : List α) (n : Nat) (f : α → α) :
    (modifyAt l n f).get? n = (l.get? n).map f := by
  induction l generalizing n with
  | nil => simp [modifyAt]
  | cons a l ih =>
      cases n with
      | zero => simp [modifyAt]
      | succ m => simpa [modifyAt] using ih m

/-- C1: `set_phase` fails with `NotFound` exactly when no phase carries the
requested name, and on success the intersection's current phase is the named
phase with its elapsed counter reset to zero. -/
theorem set_phase_spec (i : IntersectionState) (name : String) :
    (i.set_phase name = Except.error SimError.NotFound ↔
      ∀ p ∈ i.phases, p.name ≠ name) ∧
    (∀ i', i.set_phase name = Except.ok i' →
      ∃ p, i'.current_phase = some p ∧ p.name = name ∧ p.elapsed = 0) := by
  unfold IntersectionState.set_phase
  cases hf : findPhaseIdx name i.phases with
  | none =>
      constructor
      · simpa using (findPhaseIdx_eq_none_iff name i.phases).mp hf
      · intro i' hi'
        simp at hi'
  | some idx =>
      obtain ⟨hlt, hname⟩ := findPhaseIdx_some name i.phases idx hf
      constructor
      · constructor
        · intro h
          simp at h
        · intro hall
          exact absurd hname (hall _ (List.get_mem _ _ _))
      · intro i' hi'
        have hi'' :
            ({ i with
                current_phase_index := idx
                phases := modifyAt i.phases idx PhaseState.reset } :
              IntersectionState) = i' := by
          simpa using hi'
        subst hi''
        refine ⟨(i.phases.get ⟨idx, hlt⟩).reset, ?_, hname, rfl⟩
        show (modifyAt i.phases idx PhaseState.reset).get? idx = _
        rw [modifyAt_get?, List.get?_eq_get hlt]
        rfl

/-- Witness for C1: looking up an existing name succeeds onto that phase with
elapsed 0; the NotFound characterization holds for a missing name. -/
theorem set_phase_spec_witness :
    (interB.set_phase "nowhere" = Except.error SimError.NotFound ↔
      ∀ p ∈ interB.phases, p.name ≠ "nowhere") ∧
    (∃ p, interBForced.current_phase = some p ∧ p.name = "main_corridor" ∧
      p.elapsed = 0) :=
  ⟨(set_phase_spec interB "nowhere").1,
   (set_phase_spec interB "main_corridor").2
     { interB with
       current_phase_index := 0
       phases := modifyAt interB.phases 0 PhaseState.reset }
     (by rfl)⟩

/-- C2 (Scenario C): with corridor pressure 15 ≥ cross pressure 10, cycle 60,
band 15, network time 3, offsets A ↦ 0 and B ↦ 5, and B on its side-street
phase, `sync_and_decide` forces B onto its corridor phase (`main_corridor`)
and returns a hold (no-switch) decision for both A and B. -/
theorem scenario_c_forced_hold :
    sync_and_decide csmC [] netC obsC =
      some ([("A", ActuationDecision.mk false),
             ("B", ActuationDecision.mk false)],
        { netC with intersections := [("A", interA), ("B", interBForced)] }) ∧
    corridorPressure csmC obsC = 15 ∧
    crossPressure csmC obsC = 10 ∧
    interB.current_phase = some phaseSide ∧
    phaseSide.lanes = ["E_W"] ∧
    interBForced.current_phase = some phaseMain ∧
    csmC.corridor_phase interB = some "main_corridor" := by
  decide

/-- C6: under the reference policy, whenever the current phase's elapsed time
at decision time is below its minimum green, the decision — for every
observation for which a decision is produced at all — is hold, so the
simulation loop (which switches only on a `switch_phase = true` decision)
never switches such a phase that tick. -/
theorem decide_holds_below_min_green (c : DemandResponsiveController)
    (i : IntersectionState) (obs : DetectorObservation) (phase : PhaseState)
    (hphase : i.current_phase = some phase)
    (hmin : phase.elapsed < phase.min_green)
    (d : ActuationDecision) (hd : c.decide i obs = some d) :
    d = ActuationDecision.mk false := by
  unfold DemandResponsiveController.decide at hd
  rw [hphase] at hd
  simp only [Option.bind_eq_bind, Option.some_bind] at hd
  cases hv : sumLookups obs.vehicles phase.lanes with
  | none =>
      rw [hv] at hd
      simp at hd
  | some total_queue =>
      cases hp : sumLookups obs.pedestrians phase.lanes with
      | none =>
          rw [hv, hp] at hd
          simp at hd
      | some pedestrian_pressure =>
          rw [hv, hp] at hd
          have hmust : phase.must_extend = true := by
            simp [PhaseState.must_extend]
            exact hmin
          simp [hmust] at hd
          exact hd.symm

/-- Witness for C6: intersection A at elapsed 0 with a low-demand
observation. -/
theorem decide_holds_below_min_green_witness :
    interA.current_phase = some phaseMain ∧
    phaseMain.elapsed < phaseMain.min_green ∧
    ({} : DemandResponsiveController).decide interA obsLow =
      some (ActuationDecision.mk false) ∧
    ActuationDecision.mk false = ActuationDecision.mk false :=
  ⟨by decide, by decide, by decide,
   decide_holds_below_min_green {} interA obsLow phaseMain (by decide)
     (by decide) (ActuationDecision.mk false) (by decide)⟩

/-- Lookups agreeing on every key in `keys` give the same `lookupAll`. -/
theorem lookupAll_congr (m1 m2 : List (String × Int)) (keys : List String)
    (h : ∀ k ∈ keys, lookup m1 k = lookup m2 k) :
    lookupAll m1 keys = lookupAll m2 keys := by
  induction keys with
  | nil => rfl
  | cons k ks ih =>
      unfold lookupAll
      rw [h k (List.mem_cons_self k ks),
        ih (fun x hx => h x (List.mem_cons_of_mem _ hx))]

/-- C9: the reference policy's decision depends only on the current phase's
timing fields and lane list, the controller's own settings, and the
observation entries for the lanes the current phase serves; observation
entries for other lanes never affect the result. -/
theorem decide_noninterference (c : DemandResponsiveController)
    (i1 i2 : IntersectionState) (o1 o2 : DetectorObservation)
    (p1 p2 : PhaseState)
    (h1 : i1.current_phase = some p1) (h2 : i2.current_phase = some p2)
    (he : p1.elapsed = p2.elapsed) (hmin : p1.min_green = p2.min_green)
    (hmax : p1.max_green = p2.max_green) (hl : p1.lanes = p2.lanes)
    (hveh : ∀ lane ∈ p1.lanes, lookup o1.vehicles lane = lookup o2.vehicles lane)
    (hped : ∀ lane ∈ p1.lanes,
      lookup o1.pedestrians lane = lookup o2.pedestrians lane) :
    c.decide i1 o1 = c.decide i2 o2 := by
  unfold DemandResponsiveController.decide
  rw [h1, h2]
  have hm : p1.must_extend = p2.must_extend := by
    simp [PhaseState.must_extend, he, hmin]
  have hce : p1.can_extend = p2.can_extend := by
    simp [PhaseState.can_extend, he, hmax]
  have hv : sumLookups o1.vehicles p1.lanes = sumLookups o2.vehicles p2.lanes := by
    unfold sumLookups
    rw [← hl, lookupAll_congr o1.vehicles o2.vehicles p1.lanes hveh]
  have hp :
      sumLookups o1.pedestrians p1.lanes = sumLookups o2.pedestrians p2.lanes := by
    unfold sumLookups
    rw [← hl, lookupAll_congr o1.pedestrians o2.pedestrians p1.lanes hped]
  simp only [Option.bind_eq_bind, Option.some_bind]
  rw [hv, hp]
  simp only [hm, hce]

/-- Witness for C9: the same intersection under two observations that differ
only on the unserved lane `E_W` gets the same decision. -/
theorem decide_noninterference_witness :
    ({} : DemandResponsiveController).decide interA obsLow =
      ({} : DemandResponsiveController).decide interA obsLowNoise :=
  decide_noninterference {} interA interA obsLow obsLowNoise phaseMain
    phaseMain (by decide) (by decide) rfl rfl rfl rfl (by decide) (by decide)

/-- C7: `within_green_band` computes `((t + offset) % cycle) < band`; as a
function of `t` it is periodic with period `cycle`, and in each period window
of length `cycle` it is true on exactly the `band` consecutive values at the
start of the window. -/
theorem within_green_band_spec (offset cycle band : Int)
    (hcyc : 0 < cycle) (hband : 0 < band) (hbc : band ≤ cycle) :
    (∀ t, within_green_band t offset cycle band =
        Decidable.decide (((t + offset) % cycle) < band)) ∧
    (∀ t, within_green_band (t + cycle) offset cycle band =
        within_green_band t offset cycle band) ∧
    (∀ k : Int,
      (Finset.Ico (k * cycle - offset) (k * cycle - offset + cycle)).filter
          (fun t => within_green_band t offset cycle band = true) =
        Finset.Ico (k * cycle - offset) (k * cycle - offset + band)) ∧
    (∀ k : Int,
      ((Finset.Ico (k * cycle - offset) (k * cycle - offset + cycle)).filter
          (fun t => within_green_band t offset cycle band = true)).card =
        band.toNat) := by
  have hperiod : ∀ t, within_green_band (t + cycle) offset cycle band =
      within_green_band t offset cycle band := by
    intro t
    unfold within_green_band
    have hmod : (t + cycle + offset) % cycle = (t + offset) % cycle := by
      have harr : t + cycle + offset = t + offset + cycle * 1 := by ring
      rw [harr, Int.add_mul_emod_self_left]
    rw [hmod]
  have hwindow : ∀ k : Int,
      (Finset.Ico (k * cycle - offset) (k * cycle - offset + cycle)).filter
          (fun t => within_green_band t offset cycle band = true) =
        Finset.Ico (k * cycle - offset) (k * cycle - offset + band) := by
    intro k
    have key : ∀ t : Int, k * cycle - offset ≤ t →
        t < k * cycle - offset + cycle →
        (t + offset) % cycle = t + offset - k * cycle := by
      intro t hlo hhi
      have hx : (t + offset - k * cycle) % cycle = t + offset - k * cycle := by
        apply Int.emod_eq_of_lt
        · omega
        · omega
      calc (t + offset) % cycle
          = (t + offset - k * cycle + cycle * k) % cycle := by congr 1; ring
        _ = (t + offset - k * cycle) % cycle :=
            Int.add_mul_emod_self_left (t + offset - k * cycle) cycle k
        _ = t + offset - k * cycle := hx
    ext t
    simp only [Finset.mem_filter, Finset.mem_Ico, within_green_band,
      decide_eq_true_eq]
    constructor
    · rintro ⟨⟨hlo, hhi⟩, hband'⟩
      rw [key t hlo hhi] at hband'
      omega
    · rintro ⟨hlo, hhi⟩
      have hhi' : t < k * cycle - offset + cycle := by omega
      refine ⟨⟨hlo, hhi'⟩, ?_⟩
      rw [key t hlo hhi']
      omega
  refine ⟨fun t => rfl, hperiod, hwindow, fun k => ?_⟩
  rw [hwindow k, Int.card_Ico]
  congr 1
  omega

/-- Witness for C7 at offset 5, cycle 60, band 15: periodicity at `t = 3` and
the 15-element band in the window for `k = 0`. -/
theorem within_green_band_spec_witness :
    (0 : Int) < 60 ∧ (0 : Int) < 15 ∧ (15 : Int) ≤ 60 ∧
    within_green_band (3 + 60) 5 60 15 = within_green_band 3 5 60 15 ∧
    ((Finset.Ico (0 * 60 - 5 : Int) (0 * 60 - 5 + 60)).filter
        (fun t => within_green_band t 5 60 15 = true)).card = (15 : Int).toNat :=
  ⟨by decide, by decide, by decide,
   (within_green_band_spec 5 60 15 (by decide) (by decide) (by decide)).2.1 3,
   (within_green_band_spec 5 60 15 (by decide) (by decide)
     (by decide)).2.2.2 0⟩

end Traffic
